import Mathlib

/-
Verification of the statistics-instrumentation module `pacti_counters.py`.

The module wraps three binary contract-algebra operations (compose, quotient,
merge) with a decorator that counts invocations and tracks running min/max
contract sizes, snapshots those counters into `PolyhedralContractCounts`
records, combines snapshots with `__add__`, and summarises a list of
snapshots with `polyhedral_count_stats`.

The embedding below translates the Python source into Lean:
  - Python `int` becomes `Nat` (all tracked quantities are non-negative);
    `sys.maxsize` is the concrete constant `2^63 - 1`.
  - `PolyhedralContractSize` with `functools.total_ordering` over `__ge__`
    (lexicographic tuple comparison) becomes a structure plus the strict
    lexicographic order `sizeLt`; Python's builtin `min`/`max` (which select
    a whole element via `<` / `>`, keeping the earlier element on ties)
    become `pyMin` / `pyMax` and left folds thereof.
  - The decorator's mutable per-function attributes (`counter`, `min_size`,
    `max_size`) become an explicit state record `OpState`; one wrapped call
    becomes the state transition `wrapperCall`, with the underlying
    operation's outcome given as an `Except` value so that the
    exception path is represented.
  - Python `float` division in the averages becomes exact division in `ℚ`.
  - Attribute lookup in `PolyhedralContractCounts.__str__` (an f-string
    reading `self.compose`, `self.quotient`, `self.merge`) is modelled by a
    total lookup function over the dataclass's field names returning
    `Option`, so that a missing attribute (Python `AttributeError`) is
    `none`.
-/

/-- Python's `sys.maxsize` on a 64-bit platform. -/
def maxsize : Nat := 9223372036854775807

/-- A polyhedral term; its internal structure is irrelevant to the counters,
only list lengths are read. -/
abbrev PolyTerm := Nat

/-- A term list (`contract.a` / `contract.g` expose a `.terms` list). -/
structure TermList where
  terms : List PolyTerm

/-- The slice of `pacti.contracts.PolyhedralIoContract` that the counters
read: assumption terms, guarantee terms and the variable list. -/
structure PolyhedralIoContract where
  a : TermList
  g : TermList
  vars : List String

/-- Embedding of the `PolyhedralContractSize` dataclass: a constraint count
and a variable count. -/
structure PolyhedralContractSize where
  constraints : Nat
  variables_ : Nat
deriving DecidableEq, Repr

/-- Embedding of `PolyhedralContractSize.__init__(contract, max_values)`:
with `max_values` the sentinel `(sys.maxsize, sys.maxsize)`; with a contract
the pair (len(a.terms) + len(g.terms), len(vars)); with `None` the zero
measurement. A well-formed contract object is truthy in Python, so the
`elif contract:` branch is taken exactly when a contract is supplied. -/
def PolyhedralContractSize.init (contract : Option PolyhedralIoContract)
    (max_values : Bool) : PolyhedralContractSize :=
  if max_values then
    { constraints := maxsize, variables_ := maxsize }
  else
    match contract with
    | some c =>
        { constraints := c.a.terms.length + c.g.terms.length
          variables_ := c.vars.length }
    | none => { constraints := 0, variables_ := 0 }

/-- The strict order `a < b` on sizes. The class derives it via
`functools.total_ordering` from `__ge__` (lexicographic tuple comparison):
`a.__lt__(b)` is `not a.__ge__(b)`, i.e. strict lexicographic less-than on
the pair (constraints, variables). -/
def sizeLt (a b : PolyhedralContractSize) : Prop :=
  a.constraints < b.constraints ∨
    (a.constraints = b.constraints ∧ a.variables_ < b.variables_)

instance (a b : PolyhedralContractSize) : Decidable (sizeLt a b) := by
  unfold sizeLt; infer_instance

/-- The non-strict lexicographic order `a <= b` on sizes (derived
`__le__`). -/
def sizeLe (a b : PolyhedralContractSize) : Prop :=
  a.constraints < b.constraints ∨
    (a.constraints = b.constraints ∧ a.variables_ ≤ b.variables_)

instance (a b : PolyhedralContractSize) : Decidable (sizeLe a b) := by
  unfold sizeLe; infer_instance

/-- Python's builtin `min(a, b)`: returns `b` when `b < a`, else the earlier
argument `a`. -/
def pyMin (a b : PolyhedralContractSize) : PolyhedralContractSize :=
  if sizeLt b a then b else a

/-- Python's builtin `max(a, b)`: returns `b` when `b > a` (derived `__gt__`,
strict lexicographic), else the earlier argument `a`. -/
def pyMax (a b : PolyhedralContractSize) : PolyhedralContractSize :=
  if sizeLt a b then b else a

/-- Python's `min` over a non-empty sequence: start from the first element
and fold `pyMin` over the rest. -/
def pyMinList (h : PolyhedralContractSize) (t : List PolyhedralContractSize) :
    PolyhedralContractSize :=
  t.foldl pyMin h

/-- Python's `max` over a non-empty sequence. -/
def pyMaxList (h : PolyhedralContractSize) (t : List PolyhedralContractSize) :
    PolyhedralContractSize :=
  t.foldl pyMax h

/-- Embedding of `PolyhedralContractSize._render_`: `sys.maxsize` prints as
"inf", any other value in decimal. -/
def sizeRender (value : Nat) : String :=
  if maxsize = value then "inf" else toString value

/-- Embedding of `PolyhedralContractSize.__str__`. -/
def PolyhedralContractSize.str (s : PolyhedralContractSize) : String :=
  "(constraints: " ++ sizeRender s.constraints ++ ", variables: " ++
    sizeRender s.variables_ ++ ")"

theorem pyMin_comm (a b : PolyhedralContractSize) : pyMin a b = pyMin b a := by
  rcases a with ⟨ac, av⟩; rcases b with ⟨bc, bv⟩
  unfold pyMin sizeLt
  split_ifs <;> simp_all [PolyhedralContractSize.mk.injEq] <;> omega

theorem pyMax_comm (a b : PolyhedralContractSize) : pyMax a b = pyMax b a := by
  rcases a with ⟨ac, av⟩; rcases b with ⟨bc, bv⟩
  unfold pyMax sizeLt
  split_ifs <;> simp_all [PolyhedralContractSize.mk.injEq] <;> omega

theorem pyMin_assoc (a b c : PolyhedralContractSize) :
    pyMin (pyMin a b) c = pyMin a (pyMin b c) := by
  rcases a with ⟨ac, av⟩; rcases b with ⟨bc, bv⟩; rcases c with ⟨cc, cv⟩
  unfold pyMin sizeLt
  split_ifs <;> simp_all [PolyhedralContractSize.mk.injEq] <;> omega

theorem pyMax_assoc (a b c : PolyhedralContractSize) :
    pyMax (pyMax a b) c = pyMax a (pyMax b c) := by
  rcases a with ⟨ac, av⟩; rcases b with ⟨bc, bv⟩; rcases c with ⟨cc, cv⟩
  unfold pyMax sizeLt
  split_ifs <;> simp_all [PolyhedralContractSize.mk.injEq] <;> omega

theorem sizeLe_trans {a b c : PolyhedralContractSize} (hab : sizeLe a b)
    (hbc : sizeLe b c) : sizeLe a c := by
  unfold sizeLe at *; omega

theorem pyMin_le_left (a b : PolyhedralContractSize) : sizeLe (pyMin a b) a := by
  unfold pyMin sizeLt sizeLe; split_ifs <;> omega

theorem pyMin_le_right (a b : PolyhedralContractSize) : sizeLe (pyMin a b) b := by
  unfold pyMin sizeLt sizeLe; split_ifs <;> omega

theorem le_pyMax_left (a b : PolyhedralContractSize) : sizeLe a (pyMax a b) := by
  unfold pyMax sizeLt sizeLe; split_ifs <;> omega

theorem le_pyMax_right (a b : PolyhedralContractSize) : sizeLe b (pyMax a b) := by
  unfold pyMax sizeLt sizeLe; split_ifs <;> omega

/-- The mutable attributes that `statistics_decorator` attaches to each
wrapped function: the invocation counter and the running min/max sizes. -/
structure OpState where
  counter : Nat
  min_size : PolyhedralContractSize
  max_size : PolyhedralContractSize
deriving DecidableEq, Repr

/-- The initial attribute values set by `statistics_decorator` before any
call: counter 0, min_size the unbounded sentinel, max_size the zero
measurement. -/
def wrapperInitState : OpState :=
  { counter := 0
    min_size := PolyhedralContractSize.init none true
    max_size := PolyhedralContractSize.init none false }

/-- Embedding of one call through `statistics_decorator.wrapper`. The
counter is incremented first; then the original function runs, its outcome
given here as `fnResult` (`Except.ok` a contract, or `Except.error` the
exception it raises). On an exception the wrapper has no handler, so the
exception propagates and only the counter has changed. On success the
wrapper measures both operands and the result and folds them into
min_size with `min` and into max_size with `max`, then returns the result
unchanged. -/
def wrapperCall (st : OpState) (lhs rhs : PolyhedralIoContract)
    (fnResult : Except String PolyhedralIoContract) :
    Except String PolyhedralIoContract × OpState :=
  let counter1 := st.counter + 1
  match fnResult with
  | Except.error e => (Except.error e, { st with counter := counter1 })
  | Except.ok result_contract =>
      let input_size1 := PolyhedralContractSize.init (some lhs) false
      let input_size2 := PolyhedralContractSize.init (some rhs) false
      let result_size := PolyhedralContractSize.init (some result_contract) false
      (Except.ok result_contract,
        { counter := counter1
          min_size := pyMinList st.min_size [input_size1, input_size2, result_size]
          max_size := pyMaxList st.max_size [input_size1, input_size2, result_size] })

/-- A sequence of successful wrapped calls, each given as (lhs, rhs, result),
run from the decorator's fresh initial state. -/
def runSuccCalls
    (calls : List (PolyhedralIoContract × PolyhedralIoContract × PolyhedralIoContract)) :
    OpState :=
  calls.foldl (fun st c => (wrapperCall st c.1 c.2.1 (Except.ok c.2.2)).2)
    wrapperInitState

/-- Embedding of the `PolyhedralContractCounts` dataclass (one run's
snapshot): per-operation invocation counts and min/max sizes, with the
dataclass's default values. -/
structure PolyhedralContractCounts where
  compose_count : Nat := 0
  quotient_count : Nat := 0
  merge_count : Nat := 0
  compose_min_size : PolyhedralContractSize := PolyhedralContractSize.init none true
  quotient_min_size : PolyhedralContractSize := PolyhedralContractSize.init none true
  merge_min_size : PolyhedralContractSize := PolyhedralContractSize.init none true
  compose_max_size : PolyhedralContractSize := PolyhedralContractSize.init none false
  quotient_max_size : PolyhedralContractSize := PolyhedralContractSize.init none false
  merge_max_size : PolyhedralContractSize := PolyhedralContractSize.init none false
deriving DecidableEq, Repr

/-- Embedding of `PolyhedralContractCounts.update_counts`: read the current
attribute state of the three wrapped operations into the record (a snapshot,
not a reset). -/
def PolyhedralContractCounts.update_counts (compose quotient merge : OpState) :
    PolyhedralContractCounts :=
  { compose_count := compose.counter
    quotient_count := quotient.counter
    merge_count := merge.counter
    compose_min_size := compose.min_size
    quotient_min_size := quotient.min_size
    merge_min_size := merge.min_size
    compose_max_size := compose.max_size
    quotient_max_size := quotient.max_size
    merge_max_size := merge.max_size }

/-- Embedding of `PolyhedralContractCounts.__add__`: counts sum, min sizes
combine with `min`, max sizes combine with `max`. -/
def PolyhedralContractCounts.add (self other : PolyhedralContractCounts) :
    PolyhedralContractCounts :=
  { compose_count := self.compose_count + other.compose_count
    quotient_count := self.quotient_count + other.quotient_count
    merge_count := self.merge_count + other.merge_count
    compose_min_size := pyMin self.compose_min_size other.compose_min_size
    quotient_min_size := pyMin self.quotient_min_size other.quotient_min_size
    merge_min_size := pyMin self.merge_min_size other.merge_min_size
    compose_max_size := pyMax self.compose_max_size other.compose_max_size
    quotient_max_size := pyMax self.quotient_max_size other.quotient_max_size
    merge_max_size := pyMax self.merge_max_size other.merge_max_size }

/-- The attribute names that exist on a `PolyhedralContractCounts` instance
(its dataclass fields), with their rendered values; any other attribute
lookup is an `AttributeError`, i.e. `none`. -/
def PolyhedralContractCounts.attrLookup (c : PolyhedralContractCounts) :
    String → Option String
  | "compose_count" => some (toString c.compose_count)
  | "quotient_count" => some (toString c.quotient_count)
  | "merge_count" => some (toString c.merge_count)
  | "compose_min_size" => some c.compose_min_size.str
  | "quotient_min_size" => some c.quotient_min_size.str
  | "merge_min_size" => some c.merge_min_size.str
  | "compose_max_size" => some c.compose_max_size.str
  | "quotient_max_size" => some c.quotient_max_size.str
  | "merge_max_size" => some c.merge_max_size.str
  | _ => none

/-- Embedding of `PolyhedralContractCounts.__str__`: the f-string reads the
attributes `compose`, `quotient` and `merge` (first line) and the six size
attributes (remaining lines); each lookup must succeed for the string to be
produced, otherwise the whole call fails with an `AttributeError` (`none`). -/
def PolyhedralContractCounts.strImpl (c : PolyhedralContractCounts) :
    Option String := do
  let compose ← c.attrLookup "compose"
  let quotient ← c.attrLookup "quotient"
  let merge ← c.attrLookup "merge"
  let cmin ← c.attrLookup "compose_min_size"
  let cmax ← c.attrLookup "compose_max_size"
  let qmin ← c.attrLookup "quotient_min_size"
  let qmax ← c.attrLookup "quotient_max_size"
  let mmin ← c.attrLookup "merge_min_size"
  let mmax ← c.attrLookup "merge_max_size"
  pure ("PolyhedralIoContract operation counts: compose=" ++ compose ++
    ", quotient=" ++ quotient ++ ", merge=" ++ merge ++ ".\n" ++
    "min/max sizes for compose=" ++ cmin ++ "/" ++ cmax ++ "\n" ++
    "min/max sizes for quotient=" ++ qmin ++ "/" ++ qmax ++ "\n" ++
    "min/max sizes for merge=" ++ mmin ++ "/" ++ mmax ++ "\n")

/-- Embedding of the `PolyhedralContractCountStats` dataclass; the averages
are Python floats, embedded as exact rationals. -/
structure PolyhedralContractCountStats where
  min_compose : Nat
  min_quotient : Nat
  min_merge : Nat
  max_compose : Nat
  max_quotient : Nat
  max_merge : Nat
  avg_compose : ℚ
  avg_quotient : ℚ
  avg_merge : ℚ
  compose_min_size : PolyhedralContractSize
  quotient_min_size : PolyhedralContractSize
  merge_min_size : PolyhedralContractSize
  compose_max_size : PolyhedralContractSize
  quotient_max_size : PolyhedralContractSize
  merge_max_size : PolyhedralContractSize
deriving DecidableEq, Repr

/-- Python's `min` over a non-empty list of ints. -/
def pyMinNat (h : Nat) (t : List Nat) : Nat := t.foldl Nat.min h

/-- Python's `max` over a non-empty list of ints. -/
def pyMaxNat (h : Nat) (t : List Nat) : Nat := t.foldl Nat.max h

/-- Embedding of `polyhedral_count_stats`. In Python, `min(...)` over an
empty generator raises `ValueError` before anything else happens, so the
empty list yields `none`; a non-empty list yields the statistics record. -/
def polyhedral_count_stats (counts : List PolyhedralContractCounts) :
    Option PolyhedralContractCountStats :=
  match counts with
  | [] => none
  | c :: rest =>
      some
        { min_compose := pyMinNat c.compose_count (rest.map (fun x => x.compose_count))
          min_quotient := pyMinNat c.quotient_count (rest.map (fun x => x.quotient_count))
          min_merge := pyMinNat c.merge_count (rest.map (fun x => x.merge_count))
          max_compose := pyMaxNat c.compose_count (rest.map (fun x => x.compose_count))
          max_quotient := pyMaxNat c.quotient_count (rest.map (fun x => x.quotient_count))
          max_merge := pyMaxNat c.merge_count (rest.map (fun x => x.merge_count))
          avg_compose :=
            (((c :: rest).map (fun x => (x.compose_count : ℚ))).sum) / ((c :: rest).length : ℚ)
          avg_quotient :=
            (((c :: rest).map (fun x => (x.quotient_count : ℚ))).sum) / ((c :: rest).length : ℚ)
          avg_merge :=
            (((c :: rest).map (fun x => (x.merge_count : ℚ))).sum) / ((c :: rest).length : ℚ)
          compose_min_size :=
            pyMinList c.compose_min_size (rest.map (fun x => x.compose_min_size))
          quotient_min_size :=
            pyMinList c.quotient_min_size (rest.map (fun x => x.quotient_min_size))
          merge_min_size :=
            pyMinList c.merge_min_size (rest.map (fun x => x.merge_min_size))
          compose_max_size :=
            pyMaxList c.compose_max_size (rest.map (fun x => x.compose_max_size))
          quotient_max_size :=
            pyMaxList c.quotient_max_size (rest.map (fun x => x.quotient_max_size))
          merge_max_size :=
            pyMaxList c.merge_max_size (rest.map (fun x => x.merge_max_size)) }

/-- On a successful call the new min_size is the fold of `min` over the old
value and the three measurements (definitional unfolding of `wrapperCall`). -/
theorem wrapperCall_ok_min (st : OpState) (lhs rhs res : PolyhedralIoContract) :
    (wrapperCall st lhs rhs (Except.ok res)).2.min_size =
      pyMin (pyMin (pyMin st.min_size (PolyhedralContractSize.init (some lhs) false))
          (PolyhedralContractSize.init (some rhs) false))
        (PolyhedralContractSize.init (some res) false) := rfl

/-- On a successful call the new max_size is the fold of `max` over the old
value and the three measurements. -/
theorem wrapperCall_ok_max (st : OpState) (lhs rhs res : PolyhedralIoContract) :
    (wrapperCall st lhs rhs (Except.ok res)).2.max_size =
      pyMax (pyMax (pyMax st.max_size (PolyhedralContractSize.init (some lhs) false))
          (PolyhedralContractSize.init (some rhs) false))
        (PolyhedralContractSize.init (some res) false) := rfl

/-- Every call, successful or not, increments the counter by exactly one. -/
theorem wrapperCall_counter (st : OpState) (lhs rhs : PolyhedralIoContract)
    (fnResult : Except String PolyhedralIoContract) :
    (wrapperCall st lhs rhs fnResult).2.counter = st.counter + 1 := by
  cases fnResult <;> rfl

/-- A size is no larger than another in the lexicographic order only if its
constraints field is no larger. -/
theorem sizeLe_constraints {a b : PolyhedralContractSize} (h : sizeLe a b) :
    a.constraints ≤ b.constraints := by
  unfold sizeLe at h; omega

/-- A contract of size (2, 3): one assumption term, one guarantee term,
three variables. -/
def c1A : PolyhedralIoContract :=
  { a := { terms := [0] }, g := { terms := [0] }, vars := ["x", "y", "z"] }

/-- A contract of size (5, 1): three assumption terms, two guarantee terms,
one variable. -/
def c1B : PolyhedralIoContract :=
  { a := { terms := [0, 0, 0] }, g := { terms := [0, 0] }, vars := ["x"] }

/-- A contract of size (1, 1): one assumption term, no guarantee terms, one
variable. -/
def c1R : PolyhedralIoContract :=
  { a := { terms := [0] }, g := { terms := [] }, vars := ["x"] }

/-- A contract of size (1, 1), operand of the failing call used against C2. -/
def c2A : PolyhedralIoContract :=
  { a := { terms := [0] }, g := { terms := [] }, vars := ["x"] }

/-- A contract of size (1, 1), other operand of the failing call used
against C2. -/
def c2B : PolyhedralIoContract :=
  { a := { terms := [] }, g := { terms := [0] }, vars := ["y"] }

/-- A contract of size (1, 5): one assumption term, five variables. -/
def c7X : PolyhedralIoContract :=
  { a := { terms := [0] }, g := { terms := [] }
    vars := ["a", "b", "c", "d", "e"] }

/-- A contract of size (2, 0): one assumption term, one guarantee term, no
variables. -/
def c7Y : PolyhedralIoContract :=
  { a := { terms := [0] }, g := { terms := [0] }, vars := [] }

/-- C1, counterexample: one wrapped call whose operand/result measurements
are (2,3), (5,1), (1,1) leaves max_size = (5,1), not (5,3): the max is the
lexicographically largest whole measurement, not the per-field maximum. -/
theorem C1_per_field_max_counterexample :
    (wrapperCall wrapperInitState c1A c1B (Except.ok c1R)).2.max_size ≠
      PolyhedralContractSize.mk 5 3 := by
  decide

/-- C1, amended: after a sequence of wrapped calls whose operand/result size
measurements are (2,3), (5,1), (1,1), min_size = (1,1) and max_size = (5,1):
min and max select the lexicographically smallest/largest whole measurement
observed, not per-field extrema. -/
theorem C1_min_max_tracking :
    (wrapperCall wrapperInitState c1A c1B (Except.ok c1R)).2.min_size =
        PolyhedralContractSize.mk 1 1 ∧
      (wrapperCall wrapperInitState c1A c1B (Except.ok c1R)).2.max_size =
        PolyhedralContractSize.mk 5 1 := by
  decide

/-- C2, counterexample: when the underlying operation raises, the
instrumentation state is not left unchanged — the invocation counter of a
fresh wrapped operation becomes 1, not 0. -/
theorem C2_state_changes_on_exception :
    (wrapperCall wrapperInitState c2A c2B
        (Except.error "composition failed")).2.counter ≠
      wrapperInitState.counter := by
  decide

/-- C2, amended: if the underlying operation raises, the exception
propagates unchanged to the caller and min_size and max_size are not
updated, but the invocation counter has already been incremented by 1,
because the increment precedes the underlying call. -/
theorem C2_exception_transparency (st : OpState)
    (lhs rhs : PolyhedralIoContract) (e : String) :
    wrapperCall st lhs rhs (Except.error e) =
      (Except.error e, { st with counter := st.counter + 1 }) := rfl

/-- C3: combining run counters with `__add__` is associative and
commutative, where equality is structural equality of all nine fields. -/
theorem C3_combine_assoc_comm (a b c : PolyhedralContractCounts) :
    (a.add b).add c = a.add (b.add c) ∧ a.add b = b.add a := by
  constructor
  · simp [PolyhedralContractCounts.add, pyMin_assoc, pyMax_assoc,
      Nat.add_assoc]
  · simp [PolyhedralContractCounts.add, pyMin_comm, pyMax_comm,
      Nat.add_comm]

/-- A run with compose count 3 and compose max size (2,2); all other fields
keep the dataclass defaults. -/
def c4run1 : PolyhedralContractCounts :=
  { compose_count := 3, compose_max_size := PolyhedralContractSize.mk 2 2 }

/-- A run with compose count 5 and compose max size (4,1). -/
def c4run2 : PolyhedralContractCounts :=
  { compose_count := 5, compose_max_size := PolyhedralContractSize.mk 4 1 }

/-- A run with compose count 4 and compose max size (3,3). -/
def c4run3 : PolyhedralContractCounts :=
  { compose_count := 4, compose_max_size := PolyhedralContractSize.mk 3 3 }

/-- C4: aggregating three runs with compose counts 3, 5, 4 and compose max
sizes (2,2), (4,1), (3,3) yields min_compose = 3, max_compose = 5,
avg_compose = 4, and compose_max_size = (4,1), the lexicographically
largest of the three sizes. -/
theorem C4_aggregate_example :
    ∃ s, polyhedral_count_stats [c4run1, c4run2, c4run3] = some s ∧
      s.min_compose = 3 ∧ s.max_compose = 5 ∧ s.avg_compose = 4 ∧
      s.compose_max_size = PolyhedralContractSize.mk 4 1 := by
  refine ⟨_, rfl, ?_, ?_, ?_, ?_⟩
  · decide
  · decide
  · norm_num [c4run1, c4run2, c4run3]
  · decide

/-- C5: measuring a contract reads assumption-term count plus
guarantee-term count as constraints and the variable count as variables;
measuring the absent contract yields the zero measurement. -/
theorem C5_measure_contract (c : PolyhedralIoContract) :
    (PolyhedralContractSize.init (some c) false).constraints =
        c.a.terms.length + c.g.terms.length ∧
      (PolyhedralContractSize.init (some c) false).variables_ =
        c.vars.length ∧
      PolyhedralContractSize.init none false = PolyhedralContractSize.mk 0 0 :=
  ⟨rfl, rfl, rfl⟩

/-- C6: summarizing an empty collection of run counters fails (the min over
an empty generator raises), while every non-empty collection produces a
result. -/
theorem C6_empty_fails_nonempty_succeeds (c : PolyhedralContractCounts)
    (rest : List PolyhedralContractCounts) :
    polyhedral_count_stats [] = none ∧
      (polyhedral_count_stats (c :: rest)).isSome = true :=
  ⟨rfl, rfl⟩

/-- C7, counterexample: one successful call with operand sizes (1,5) and
(2,0) and result size (2,0) leaves min_size = (1,5) and max_size = (2,0),
so min_size.variables = 5 > 0 = max_size.variables: the claimed per-field
invariant fails after one invocation. -/
theorem C7_per_field_invariant_counterexample :
    ¬ ((wrapperCall wrapperInitState c7X c7Y (Except.ok c7Y)).2.min_size.constraints ≤
          (wrapperCall wrapperInitState c7X c7Y (Except.ok c7Y)).2.max_size.constraints ∧
        (wrapperCall wrapperInitState c7X c7Y (Except.ok c7Y)).2.min_size.variables_ ≤
          (wrapperCall wrapperInitState c7X c7Y (Except.ok c7Y)).2.max_size.variables_) := by
  decide

/-- C7, amended: before any invocation the counter is 0, min_size is the
unbounded sentinel and max_size is the zero measurement; after every
successful invocation, from any prior state, min_size <= max_size in the
lexicographic order of the code (so in particular
min_size.constraints <= max_size.constraints); the variables fields need
not be ordered. -/
theorem C7_sentinel_and_lex_invariant :
    wrapperInitState.counter = 0 ∧
      wrapperInitState.min_size = PolyhedralContractSize.init none true ∧
      wrapperInitState.max_size = PolyhedralContractSize.init none false ∧
      ∀ (st : OpState) (lhs rhs res : PolyhedralIoContract),
        sizeLe (wrapperCall st lhs rhs (Except.ok res)).2.min_size
            (wrapperCall st lhs rhs (Except.ok res)).2.max_size ∧
          (wrapperCall st lhs rhs (Except.ok res)).2.min_size.constraints ≤
            (wrapperCall st lhs rhs (Except.ok res)).2.max_size.constraints := by
  refine ⟨rfl, rfl, rfl, fun st lhs rhs res => ?_⟩
  have h1 : sizeLe (wrapperCall st lhs rhs (Except.ok res)).2.min_size
      (PolyhedralContractSize.init (some res) false) := by
    rw [wrapperCall_ok_min]
    exact pyMin_le_right _ _
  have h2 : sizeLe (PolyhedralContractSize.init (some res) false)
      (wrapperCall st lhs rhs (Except.ok res)).2.max_size := by
    rw [wrapperCall_ok_max]
    exact le_pyMax_right _ _
  have h := sizeLe_trans h1 h2
  exact ⟨h, sizeLe_constraints h⟩

/-- C8: rendering a run counters record always fails — the first f-string
field reads the attribute `compose`, which is not among the dataclass's
fields (the field is `compose_count`), so `__str__` raises
`AttributeError` for every value instead of producing text. -/
theorem C8_str_always_fails (c : PolyhedralContractCounts) :
    c.strImpl = none := rfl

/-- The counter of a fold of successful wrapped calls grows by exactly the
number of calls. -/
theorem foldl_wrapperCall_counter
    (calls : List (PolyhedralIoContract × PolyhedralIoContract × PolyhedralIoContract))
    (st : OpState) :
    (calls.foldl (fun st c => (wrapperCall st c.1 c.2.1 (Except.ok c.2.2)).2)
        st).counter = st.counter + calls.length := by
  induction calls generalizing st with
  | nil => simp
  | cons c rest ih =>
      rw [List.foldl_cons, ih, wrapperCall_counter]
      simp
      omega

/-- C9: invoking a fresh wrapped compose operation N times with arbitrary
arguments on which the underlying operation succeeds, then snapshotting,
yields a compose invocation count equal to N. -/
theorem C9_invocation_counting
    (calls : List (PolyhedralIoContract × PolyhedralIoContract × PolyhedralIoContract))
    (quotientSt mergeSt : OpState) :
    (PolyhedralContractCounts.update_counts (runSuccCalls calls) quotientSt
        mergeSt).compose_count = calls.length := by
  show (runSuccCalls calls).counter = calls.length
  rw [runSuccCalls, foldl_wrapperCall_counter]
  simp [wrapperInitState]

/-- C10: when the underlying operation raises, the exception propagates,
the invocation counter has already been incremented by 1 (the increment
precedes the underlying call), and min_size and max_size are unchanged. -/
theorem C10_counter_incremented_on_exception (st : OpState)
    (lhs rhs : PolyhedralIoContract) (e : String) :
    (wrapperCall st lhs rhs (Except.error e)).1 = Except.error e ∧
      (wrapperCall st lhs rhs (Except.error e)).2.counter = st.counter + 1 ∧
      (wrapperCall st lhs rhs (Except.error e)).2.min_size = st.min_size ∧
      (wrapperCall st lhs rhs (Except.error e)).2.max_size = st.max_size :=
  ⟨rfl, rfl, rfl, rfl⟩
